import Mathlib

/-!
Verification of the weekly-remaining plugin (`plugins/genshin/daily/remaining.py`).

The Python module computes, for a player roster, how many weekly-boss talent
materials are still needed per boss.  This file gives a shallow embedding of
its data model and operations and proves/refutes the specification claims.

Python `dict`s are modelled as association lists with in-place overwrite
(`dictInsert` keeps the original insertion position, as CPython does) and
first-match lookup (`dictGet`); Python exceptions are modelled with `Except`.
-/

set_option autoImplicit false

/-- Python dict assignment `d[k] = v`: overwrite in place if the key is
present (keeping its position), otherwise append at the end. -/
def dictInsert {α β : Type} [DecidableEq α] : List (α × β) → α → β → List (α × β)
  | [], k, v => [(k, v)]
  | (k2, v2) :: rest, k, v =>
    if k2 = k then (k, v) :: rest else (k2, v2) :: dictInsert rest k v

/-- Python dict lookup `d.get(k)`: first entry with the given key. -/
def dictGet {α β : Type} [DecidableEq α] : List (α × β) → α → Option β
  | [], _ => none
  | (k2, v2) :: rest, k => if k2 = k then some v2 else dictGet rest k

theorem mem_dictInsert {α β : Type} [DecidableEq α] (l : List (α × β)) (k : α) (v : β)
    (p : α × β) (h : p ∈ dictInsert l k v) : p ∈ l ∨ p = (k, v) := by
  induction l with
  | nil =>
    simp [dictInsert] at h
    exact Or.inr h
  | cons q rest ih =>
    rw [dictInsert] at h
    by_cases hk : q.1 = k
    · simp [hk] at h
      rcases h with h | h
      · exact Or.inr h
      · exact Or.inl (List.mem_cons_of_mem _ h)
    · simp [hk] at h
      rcases h with h | h
      · exact Or.inl (by simp [h])
      · rcases ih h with h2 | h2
        · exact Or.inl (List.mem_cons_of_mem _ h2)
        · exact Or.inr h2

/-! ## Talent upgrade cost (`_calculate_skills_need_for_999`) -/

/-- The per-talent-level contribution inside the loop of
`_calculate_skills_need_for_999`: `need += 2 if L < 9`, `+= 1 if L < 8`,
`+= 1 if L < 7`. -/
def skill_level_need (l : Nat) : Nat :=
  (if l < 9 then 2 else 0) + (if l < 8 then 1 else 0) + (if l < 7 then 1 else 0)

/-- `_calculate_skills_need_for_999(skills)`: the source asserts
`len(skills) == 3` and sums the contribution of `skills[k]` for `k in
range(3)`. -/
def calculate_skills_need_for_999 (skills : List Nat) : Nat :=
  skill_level_need (skills.getD 0 0) + skill_level_need (skills.getD 1 0)
    + skill_level_need (skills.getD 2 0)

theorem skill_level_need_antitone {x y : Nat} (h : x ≤ y) :
    skill_level_need y ≤ skill_level_need x := by
  unfold skill_level_need
  split_ifs <;> omega

/-- Claim C2: on triples with components in `[1, 10]`, the talent cost function
is the sum over the three components of `(2 if L < 9) + (1 if L < 8) +
(1 if L < 7)`; `cost (9, 9, 9) = 0`, `cost (1, 1, 1) = 12`, and the cost is
monotonically non-increasing as any single component increases. -/
theorem talent_cost_formula (a b c a2 b2 c2 : Nat)
    (ha : 1 ≤ a ∧ a ≤ 10) (hb : 1 ≤ b ∧ b ≤ 10) (hc : 1 ≤ c ∧ c ≤ 10)
    (ha2 : a ≤ a2 ∧ a2 ≤ 10) (hb2 : b ≤ b2 ∧ b2 ≤ 10) (hc2 : c ≤ c2 ∧ c2 ≤ 10) :
    calculate_skills_need_for_999 [a, b, c]
        = ((if a < 9 then 2 else 0) + (if a < 8 then 1 else 0) + (if a < 7 then 1 else 0))
          + ((if b < 9 then 2 else 0) + (if b < 8 then 1 else 0) + (if b < 7 then 1 else 0))
          + ((if c < 9 then 2 else 0) + (if c < 8 then 1 else 0) + (if c < 7 then 1 else 0))
      ∧ calculate_skills_need_for_999 [9, 9, 9] = 0
      ∧ calculate_skills_need_for_999 [1, 1, 1] = 12
      ∧ calculate_skills_need_for_999 [a2, b, c] ≤ calculate_skills_need_for_999 [a, b, c]
      ∧ calculate_skills_need_for_999 [a, b2, c] ≤ calculate_skills_need_for_999 [a, b, c]
      ∧ calculate_skills_need_for_999 [a, b, c2] ≤ calculate_skills_need_for_999 [a, b, c] := by
  refine ⟨rfl, by decide, by decide, ?_, ?_, ?_⟩
  · exact Nat.add_le_add (Nat.add_le_add (skill_level_need_antitone ha2.1) le_rfl) le_rfl
  · exact Nat.add_le_add (Nat.add_le_add le_rfl (skill_level_need_antitone hb2.1)) le_rfl
  · exact Nat.add_le_add le_rfl (skill_level_need_antitone hc2.1)

/-- Witness for C2 at the concrete input `(1, 1, 1)` increased to `(9, 9, 9)`. -/
theorem talent_cost_formula_witness :
    calculate_skills_need_for_999 [9, 1, 1] ≤ calculate_skills_need_for_999 [1, 1, 1] :=
  (talent_cost_formula 1 1 1 9 9 9 (by decide) (by decide) (by decide)
      (by decide) (by decide) (by decide)).2.2.2.1

/-! ## Python exceptions and results -/

/-- The Python exceptions that can escape the operations modelled here. -/
inductive PyExn where
  /-- A failed `assert` statement. -/
  | assertionError
  /-- A missing dict key (e.g. `AVATAR_DATA[...]` or `materials_map[...]`). -/
  | keyError
  /-- `int()` applied to a non-numeric string. -/
  | valueError
  /-- A re-raised `SimnetBadRequest` carrying its `ret_code`. -/
  | simnetBadRequest (ret_code : Int)
deriving DecidableEq, Repr

/-- A Python call that either returns a value or raises an exception. -/
inductive PyResult (α : Type) where
  | ok (value : α)
  | exn (e : PyExn)
deriving DecidableEq, Repr

/-- Python `int(s)` restricted to the decimal strings this module handles
(optional minus sign followed by digits); `none` models the `ValueError`. -/
def decimal_value? (s : List Char) : Option Nat :=
  if s = [] then none
  else if s.all Char.isDigit then
    some (s.foldl (fun n c => n * 10 + (c.toNat - 48)) 0)
  else none

/-- Python `int(s)`; `none` models the `ValueError` raised on a malformed
string. -/
def py_int? (s : String) : Option Int :=
  match s.toList with
  | '-' :: rest => (decimal_value? rest).map (fun n => -(n : Int))
  | l => (decimal_value? l).map (fun n => (n : Int))

/-! ## Characters and per-character talent lookup (`_get_skills_data`) -/

/-- One talent of a character detail record (simnet `detail.talents`
element): its type tag and current level. -/
structure Talent where
  ttype : String
  level : Nat
deriving DecidableEq, Repr

/-- The character detail record returned by
`character_details.get_character_details`. -/
structure CharacterDetail where
  talents : List Talent
deriving DecidableEq, Repr

/-- A simnet chronicle `Character` as used by this module: identity plus the
display fields copied into `ItemData`. -/
structure Character where
  id : Nat
  name : String
  rarity : Nat
  level : Nat
  constellation : Nat
deriving DecidableEq, Repr

/-- Lines 219-220: keep the talents whose type is `attack`, `skill` or
`burst` (in their original order) and return their levels. -/
def talent_levels (d : CharacterDetail) : List Nat :=
  (d.talents.filter (fun t => ["attack", "skill", "burst"].contains t.ttype)).map
    (fun t => t.level)

/-- Outcome of one `character_details.get_character_details` call: a detail
record (possibly `None`), or one of the two exceptions the source catches. -/
inductive DetailResult where
  /-- The call returned (a possibly-`None` detail record). -/
  | ok (detail : Option CharacterDetail)
  /-- The call raised `InvalidCookies`. -/
  | invalidCookies
  /-- The call raised `SimnetBadRequest` with the given `ret_code`. -/
  | badRequest (ret_code : Int)
deriving DecidableEq, Repr

/-- What one `_get_skills_data` call produced: its return value (or escaped
exception), the `damaged` flag of the `FragileGenshinClient` afterwards, and
whether a detail lookup was actually performed. -/
structure SkillsOutcome where
  result : PyResult (Option (List Nat))
  damaged : Bool
  lookupPerformed : Bool
deriving DecidableEq, Repr

/-- `_get_skills_data(client, character)` (lines 204-220), as a function of
the handle's `damaged` flag and of the detail-lookup outcome.  A damaged
handle returns `None` without looking anything up; `InvalidCookies` marks the
handle damaged and falls through to the `detail is None` return; a
`SimnetBadRequest` marks the handle damaged when `ret_code == -502002` and is
re-raised in every case. -/
def get_skills_data (damaged : Bool) (lookup : DetailResult) : SkillsOutcome :=
  if damaged then ⟨.ok none, damaged, false⟩
  else
    match lookup with
    | .ok none => ⟨.ok none, damaged, true⟩
    | .ok (some d) => ⟨.ok (some (talent_levels d)), damaged, true⟩
    | .invalidCookies => ⟨.ok none, true, true⟩
    | .badRequest code => ⟨.exn (.simnetBadRequest code), decide (code = -502002), true⟩

/-- A sequence of `_get_skills_data` calls against one handle, threading the
`damaged` flag (initially `false` on a fresh `FragileGenshinClient`, modelled
from the spec's `Usable -> Damaged(terminal)` state machine); returns the
final flag and the outcome of every call. -/
def run_skills_data (damaged : Bool) : List DetailResult → Bool × List SkillsOutcome
  | [] => (damaged, [])
  | l :: rest =>
    let o := get_skills_data damaged l
    let r := run_skills_data o.damaged rest
    (r.1, o :: r.2)

theorem get_skills_data_damaged (l : DetailResult) :
    get_skills_data true l = ⟨.ok none, true, false⟩ := rfl

theorem run_skills_data_damaged (ls : List DetailResult) :
    run_skills_data true ls = (true, ls.map (fun _ => ⟨.ok none, true, false⟩)) := by
  induction ls with
  | nil => rfl
  | cons l rest ih => simp [run_skills_data, get_skills_data, ih]

/-- Claim C9: once a talent-level lookup on a handle fails with
`InvalidCookies` or with the rate/ban code `-502002`, the handle is damaged
for the rest of the request, and every subsequent `_get_skills_data` call on
it returns `None` immediately without performing a lookup. -/
theorem damaged_handle_short_circuits (b : Bool) (pre post : List DetailResult)
    (d : DetailResult)
    (hd : d = .invalidCookies ∨ d = .badRequest (-502002)) :
    (run_skills_data b (pre ++ d :: post)).1 = true
      ∧ (run_skills_data b (pre ++ d :: post)).2.drop (pre.length + 1)
          = post.map (fun _ => ⟨.ok none, true, false⟩) := by
  induction pre generalizing b with
  | nil =>
    have hdam : (get_skills_data b d).damaged = true := by
      cases b with
      | true => rfl
      | false => rcases hd with h | h <;> subst h <;> rfl
    simp only [List.nil_append, run_skills_data, hdam, run_skills_data_damaged,
      List.length_nil]
    constructor
    · trivial
    · simp
  | cons x pre ih =>
    have := ih (get_skills_data b x).damaged
    simp only [List.cons_append, run_skills_data]
    constructor
    · exact this.1
    · simpa [List.drop] using this.2

/-- Witness for C9: an `InvalidCookies` failure followed by one further call,
which is short-circuited. -/
theorem damaged_handle_short_circuits_witness :
    (run_skills_data false (([] : List DetailResult) ++ .invalidCookies
        :: [DetailResult.ok none])).1 = true
      ∧ (run_skills_data false (([] : List DetailResult) ++ .invalidCookies
            :: [DetailResult.ok none])).2.drop (([] : List DetailResult).length + 1)
          = [DetailResult.ok none].map (fun _ => ⟨.ok none, true, false⟩) :=
  damaged_handle_short_circuits false [] [DetailResult.ok none] .invalidCookies
    (Or.inl rfl)

/-! ## Weekly materials (`Material`, `_parse_weekly_material`) -/

/-- The `Material` dataclass: a weekly material's name, the boss dropping it,
and the ids of the characters whose talents require it. -/
structure Material where
  name : String
  dropped_by : String
  required_by : List Int
deriving DecidableEq, Repr

/-- Lines 174-179 of `weekly_remaining`: one pass over the weekly materials
that assigns `char_to_boss[required_by] = material.dropped_by` for every
required-by id and seeds `boss_need[material.dropped_by] = 0`. -/
def build_boss_maps (ms : List Material) : List (Int × String) × List (String × Nat) :=
  ms.foldl
    (fun acc m =>
      (m.required_by.foldl (fun c2b rb => dictInsert c2b rb m.dropped_by) acc.1,
       dictInsert acc.2 m.dropped_by 0))
    ([], [])

/-- `materials_map[material_name].required_by.append(character_id)`
(line 312): `none` models the `KeyError` when the material name is absent
from the primary catalog. -/
def update_required_by (m : List (String × Material)) (key : String) (cid : Int) :
    Option (List (String × Material)) :=
  match dictGet m key with
  | none => none
  | some mat => some (dictInsert m key { mat with required_by := mat.required_by ++ [cid] })

/-- Lines 309-312: fold the new-character catalog entries
`(character_id, material_name)` into the materials map, skipping the
placeholder material name. -/
def merge_new_characters (m : List (String × Material)) :
    List (Int × String) → Option (List (String × Material))
  | [] => some m
  | (cid, mname) :: rest =>
    if mname = "星与火的基石" then merge_new_characters m rest
    else
      match update_required_by m mname cid with
      | none => none
      | some m2 => merge_new_characters m2 rest

/-- The pure tail of `_parse_weekly_material` (lines 301-314): build
`materials_map` keyed by name from the fetched primary materials, add the
`"???"` placeholder entry, then merge the new-character catalog. -/
def parse_weekly_material_merge (primary : List Material)
    (newChars : List (Int × String)) : Option (List (String × Material)) :=
  let m0 := primary.foldl (fun acc mat => dictInsert acc mat.name mat) []
  let m1 := dictInsert m0 "???" ⟨"???", "???", []⟩
  merge_new_characters m1 newChars

/-- Claim C7: merging primary catalog `MatA -> (BossX, required_by [1])` with
new-character entry `(2, MatA)` appends character 2 to `MatA`'s required-by
set, and the inverted mapping sends both 1 and 2 to `BossX`. -/
theorem weekly_merge_char_to_boss :
    parse_weekly_material_merge [⟨"MatA", "BossX", [1]⟩] [(2, "MatA")]
        = some [("MatA", ⟨"MatA", "BossX", [1, 2]⟩), ("???", ⟨"???", "???", []⟩)]
      ∧ (parse_weekly_material_merge [⟨"MatA", "BossX", [1]⟩] [(2, "MatA")]).map
            (fun m => (build_boss_maps (m.map (fun p => p.2))).1)
          = some [(1, "BossX"), (2, "BossX")] := by
  constructor
  · rfl
  · rfl

/-! ## Player roster (`_get_items_from_user`) -/

/-- Modelled from the spec: the `ItemData` container of the sibling
`material` module (a `CharacterEntry` in the spec's data model) — identity
and display fields, with `origin` present only for player-owned characters. -/
structure ItemData where
  id : String
  name : String
  rarity : Nat
  level : Nat := 0
  constellation : Nat := 0
  gid : Nat := 0
  origin : Option Character := none
  icon : String := ""
deriving DecidableEq, Repr

/-- Modelled from the spec: the `UserOwned` container of the sibling
`material` module — the dict of owned characters keyed by their catalog id
string. -/
structure UserOwned where
  avatar : List (String × ItemData) := []
deriving DecidableEq, Repr

/-- The simnet genshin client handle obtained from the account helper. -/
structure GClient where
  player_id : Nat
deriving DecidableEq, Repr

/-- Outcome of `helper.get_genshin_client` + `client.get_genshin_characters`:
either a client plus the account's characters, or one of the three failures
the source catches. -/
inductive AccountLookup where
  | ok (client : GClient) (characters : List Character)
  | playerNotFound
  | cookiesNotFound
  | invalidCookies
deriving DecidableEq, Repr

/-- The roster-building loop of `_get_items_from_user` (lines 133-146):
skip every character named `旅行者`, map the character id through
`AVATAR_DATA[str(character.id)]["id"]` (modelled by `avatar_data`; `none`
models the `KeyError` on an id absent from `AVATAR_DATA`), and store an
`ItemData` with `origin` set to the live character under the mapped id. -/
def build_user_owned_go (avatar_data : Nat → Option Nat) :
    List Character → List (String × ItemData) → Option (List (String × ItemData))
  | [], acc => some acc
  | c :: rest, acc =>
    if c.name = "旅行者" then build_user_owned_go avatar_data rest acc
    else
      match avatar_data c.id with
      | none => none
      | some mid =>
        let key := toString mid
        build_user_owned_go avatar_data rest
          (dictInsert acc key
            ⟨key, c.name, c.rarity, c.level, c.constellation, c.id, some c, ""⟩)

/-- The owned-character dict built by `_get_items_from_user` from the
characters returned for the account. -/
def build_user_owned (avatar_data : Nat → Option Nat) (chars : List Character) :
    Option (List (String × ItemData)) :=
  build_user_owned_go avatar_data chars []

/-- `_get_items_from_user` (lines 123-155): the three account failures are
caught and produce `(None, empty UserOwned)`; a successful lookup returns the
client and the roster dict.  A `KeyError` from `AVATAR_DATA` is not caught
and escapes. -/
def get_items_from_user (avatar_data : Nat → Option Nat) (r : AccountLookup) :
    PyResult (Option GClient × UserOwned) :=
  match r with
  | .ok client chars =>
    match build_user_owned avatar_data chars with
    | none => .exn .keyError
    | some av => .ok (some client, ⟨av⟩)
  | .playerNotFound => .ok (none, {})
  | .cookiesNotFound => .ok (none, {})
  | .invalidCookies => .ok (none, {})

/-! ## The weekly-remaining tally (`weekly_remaining`, lines 170-202) -/

/-- The per-avatar tally loop of `weekly_remaining` (lines 180-198).
For each id of the full roster: convert it with `int()`, look up its boss
(default `""`, skipping with a warning when empty), take the owned entry or
the greyed-out placeholder assembled from honey data (skipping with a warning
when both are missing), add the fixed 12 when the entry has no live `origin`,
and otherwise fetch the talent levels through a fresh `FragileGenshinClient`
(`assert skills is not None`) and add their upgrade cost. -/
def weekly_go (user_avatar : List (String × ItemData))
    (honey : String → Option ItemData) (details : Character → DetailResult)
    (c2b : List (Int × String)) :
    List String → List (String × Nat) → PyResult (List (String × Nat))
  | [], need => .ok need
  | aid :: rest, need =>
    match py_int? aid with
    | none => .exn .valueError
    | some cid =>
      let boss := (dictGet c2b cid).getD ""
      if boss.length = 0 then weekly_go user_avatar honey details c2b rest need
      else
        match (match dictGet user_avatar aid with
               | some a => some a
               | none => honey aid) with
        | none => weekly_go user_avatar honey details c2b rest need
        | some av =>
          match av.origin with
          | none =>
            match dictGet need boss with
            | none => .exn .keyError
            | some v =>
              weekly_go user_avatar honey details c2b rest (dictInsert need boss (v + 12))
          | some ch =>
            match (get_skills_data false (details ch)).result with
            | .exn e => .exn e
            | .ok none => .exn .assertionError
            | .ok (some sk) =>
              match dictGet need boss with
              | none => .exn .keyError
              | some v =>
                weekly_go user_avatar honey details c2b rest
                  (dictInsert need boss (v + calculate_skills_need_for_999 sk))

/-- Lines 170-198 after the account lookup: build `char_to_boss` and the
zero-seeded `boss_need` from the weekly materials, then run the tally loop
over the full roster ids. -/
def weekly_remaining_core (weekly_material : List Material)
    (full_avatar_ids : List String) (user_avatar : List (String × ItemData))
    (honey : String → Option ItemData) (details : Character → DetailResult) :
    PyResult (List (String × Nat)) :=
  let maps := build_boss_maps weekly_material
  weekly_go user_avatar honey details maps.1 full_avatar_ids maps.2

/-- The `weekly_remaining` request (lines 157-202) from the account lookup
on: `client, user_owned = await self._get_items_from_user(...)`, then
`assert client is not None`, then the tally. -/
def weekly_remaining_request (avatar_data : Nat → Option Nat) (r : AccountLookup)
    (weekly_material : List Material) (full_avatar_ids : List String)
    (honey : String → Option ItemData) (details : Character → DetailResult) :
    PyResult (List (String × Nat)) :=
  match get_items_from_user avatar_data r with
  | .exn e => .exn e
  | .ok (none, _) => .exn .assertionError
  | .ok (some _, owned) =>
    weekly_remaining_core weekly_material full_avatar_ids owned.avatar honey details

/-! ## The end-to-end scenario of the spec (claim C1) -/

/-- Detail record of character 1: talents `(attack, skill, burst)` at levels
`(9, 9, 8)`. -/
def demo_detail : CharacterDetail := ⟨[⟨"attack", 9⟩, ⟨"skill", 9⟩, ⟨"burst", 8⟩]⟩

/-- The owned character with id 1. -/
def demo_char : Character := ⟨1, "Char1", 5, 90, 0⟩

/-- A roster owning exactly character 1. -/
def demo_owned : List (String × ItemData) :=
  [("1", { id := "1", name := "Char1", rarity := 5, level := 90, constellation := 0,
           gid := 1, origin := some demo_char, icon := "" })]

/-- Honey placeholder data knowing the unowned character 2 (no `origin`). -/
def demo_honey : String → Option ItemData := fun aid =>
  if aid = "2" then some { id := "2", name := "Char2", rarity := 5, icon := "uri" }
  else none

/-- Detail lookups succeed and return `demo_detail`. -/
def demo_details : Character → DetailResult := fun _ => .ok (some demo_detail)

/-- A weekly-material catalog sending both characters 1 and 2 to `BossX`. -/
def demo_materials : List Material := [⟨"MatA", "BossX", [1, 2]⟩]

/-- Counterexample to claim C1: on the spec's end-to-end scenario (roster
`{1: levels (9,9,8)}`, full set `{1,2}`, both mapped to `BossX`) the tally is
not `{BossX: 13}`. -/
theorem weekly_tally_example_not_13 :
    weekly_remaining_core demo_materials ["1", "2"] demo_owned demo_honey demo_details
      ≠ .ok [("BossX", 13)] := by decide

/-- Claim C1 as amended: the tally of the end-to-end scenario is
`{BossX: cost (9, 9, 8) + 12} = {BossX: 14}`, because a talent at level 8
still needs 2 copies (`8 < 9`). -/
theorem weekly_tally_example_is_14 :
    weekly_remaining_core demo_materials ["1", "2"] demo_owned demo_honey demo_details
        = .ok [("BossX", calculate_skills_need_for_999 [9, 9, 8] + 12)]
      ∧ calculate_skills_need_for_999 [9, 9, 8] = 2 :=
  ⟨rfl, rfl⟩

/-- Counterexample to claim C3: with an account-lookup failure the
weekly-remaining request does raise an internal error — the
`assert client is not None` on line 169 fails. -/
theorem account_error_still_raises_assertion :
    weekly_remaining_request (fun n => some n) .playerNotFound demo_materials
        ["1", "2"] demo_honey demo_details = .exn .assertionError := rfl

/-- Claim C3 as amended: the per-player lookup itself absorbs the three
account failures (returns no client and an empty roster, after an
informational log), but the weekly-remaining request then fails its
`assert client is not None` and so raises an `AssertionError`. -/
theorem account_error_absorbed_then_assert (avatar_data : Nat → Option Nat)
    (wm : List Material) (fids : List String) (honey : String → Option ItemData)
    (details : Character → DetailResult) (r : AccountLookup)
    (h : r = .playerNotFound ∨ r = .cookiesNotFound ∨ r = .invalidCookies) :
    get_items_from_user avatar_data r = .ok (none, {})
      ∧ weekly_remaining_request avatar_data r wm fids honey details
          = .exn .assertionError := by
  rcases h with h | h | h <;> subst h <;> exact ⟨rfl, rfl⟩

/-- Witness for the amended C3 at the `CookiesNotFoundError` outcome. -/
theorem account_error_absorbed_then_assert_witness :
    get_items_from_user (fun n => some n) .cookiesNotFound = .ok (none, {})
      ∧ weekly_remaining_request (fun n => some n) .cookiesNotFound demo_materials
          ["1"] demo_honey demo_details = .exn .assertionError :=
  account_error_absorbed_then_assert (fun n => some n) demo_materials ["1"]
    demo_honey demo_details .cookiesNotFound (Or.inr (Or.inl rfl))

/-! ## Claim C10: the Traveler never enters the owned-character dict -/

theorem build_user_owned_go_no_traveler (avatar_data : Nat → Option Nat)
    (chars : List Character) (acc res : List (String × ItemData))
    (hacc : ∀ p ∈ acc, p.2.name ≠ "旅行者")
    (h : build_user_owned_go avatar_data chars acc = some res) :
    ∀ p ∈ res, p.2.name ≠ "旅行者" := by
  induction chars generalizing acc with
  | nil =>
    simp only [build_user_owned_go, Option.some.injEq] at h
    exact h ▸ hacc
  | cons c rest ih =>
    simp only [build_user_owned_go] at h
    by_cases hn : c.name = "旅行者"
    · rw [if_pos hn] at h
      exact ih acc hacc h
    · rw [if_neg hn] at h
      cases had : avatar_data c.id with
      | none => rw [had] at h; cases h
      | some mid =>
        rw [had] at h
        refine ih _ ?_ h
        intro p hp
        rcases mem_dictInsert _ _ _ p hp with hmem | heq
        · exact hacc p hmem
        · rw [heq]; exact hn

/-- Claim C10: whenever `_get_items_from_user`'s roster loop succeeds, no
entry of the owned-character dict has name `旅行者` — the Traveler is skipped
even when the account includes it. -/
theorem traveler_never_in_owned_roster (avatar_data : Nat → Option Nat)
    (chars : List Character) (res : List (String × ItemData))
    (h : build_user_owned avatar_data chars = some res) :
    ∀ p ∈ res, p.2.name ≠ "旅行者" :=
  build_user_owned_go_no_traveler avatar_data chars [] res (by simp) h

/-- Witness for C10: an account holding the Traveler and one other character
yields a roster whose single entry is the other character, not named 旅行者. -/
theorem traveler_never_in_owned_roster_witness :
    (("10000002",
        ({ id := "10000002", name := "神里绫华", rarity := 5, level := 90,
           constellation := 0, gid := 10000002,
           origin := some ⟨10000002, "神里绫华", 5, 90, 0⟩, icon := "" } : ItemData)) :
      String × ItemData).2.name ≠ "旅行者" :=
  traveler_never_in_owned_roster (fun n => some n)
    [⟨10000005, "旅行者", 5, 90, 0⟩, ⟨10000002, "神里绫华", 5, 90, 0⟩]
    [("10000002",
      { id := "10000002", name := "神里绫华", rarity := 5, level := 90,
        constellation := 0, gid := 10000002,
        origin := some ⟨10000002, "神里绫华", 5, 90, 0⟩, icon := "" })] rfl
    _ (by decide)

/-! ## Snapshot staleness and startup (`initialize`, lines 60-86) -/

/-- `(datetime.now() - mtime).days` for an elapsed time given in whole
seconds: Python `timedelta.days` is the floor of the elapsed time in days. -/
def staleness_days (elapsedSeconds : Nat) : Nat := elapsedSeconds / 86400

/-- Lines 70-77: a refresh task is scheduled when the snapshot file does not
exist, or when `elapsed.days > 3`. -/
def should_schedule_refresh (fileExists : Bool) (elapsedSeconds : Nat) : Bool :=
  if fileExists then decide (staleness_days elapsedSeconds > 3) else true

/-- Counterexample to claim C5: a snapshot 3 days and 1 hour old is older
than 3 days, yet the startup check schedules no refresh (`elapsed.days` is
3, not `> 3`). -/
theorem stale_three_days_plus_no_refresh :
    should_schedule_refresh true (3 * 86400 + 3600) = false
      ∧ 3 * 86400 < 3 * 86400 + 3600 := by decide

/-- Claim C5 as amended: a 2-day-old snapshot schedules no refresh and a
4-day-old one does; in general the startup check schedules a refresh for an
existing snapshot exactly when its age reaches 4 whole days
(`elapsed.days > 3`). -/
theorem refresh_iff_at_least_four_days (s : Nat) :
    should_schedule_refresh true (2 * 86400) = false
      ∧ should_schedule_refresh true (4 * 86400) = true
      ∧ (should_schedule_refresh true s = true ↔ 4 * 86400 ≤ s) := by
  refine ⟨by decide, by decide, ?_⟩
  simp only [should_schedule_refresh, if_pos, staleness_days, decide_eq_true_eq]
  omega

/-- Result of parsing the snapshot file: a table, or a
`pydantic.ValidationError`. -/
inductive ParseOutcome (T : Type) where
  | ok (t : T)
  | invalid

/-- The world observed by `initialize`: whether the snapshot file exists, its
age, its parse outcome, and the in-memory table before startup. -/
structure InitInput (T : Type) where
  fileExists : Bool
  elapsedSeconds : Nat
  content : ParseOutcome T
  table : T

/-- The observable effects of `initialize`: the in-memory table afterwards,
whether the snapshot file was removed, and how many refresh tasks were
scheduled. -/
structure InitResult (T : Type) where
  table : T
  fileDeleted : Bool
  refreshTasks : Nat

/-- `initialize` (lines 60-86): schedule a refresh when the file is missing
or stale; then, if the file exists, parse it — `self.everyday_materials` is
replaced on success, while a `pydantic.ValidationError` removes the file and
schedules a refresh, leaving the in-memory table as it was. -/
def plugin_startup {T : Type} (inp : InitInput T) : InitResult T :=
  let r1 := if should_schedule_refresh inp.fileExists inp.elapsedSeconds then 1 else 0
  if inp.fileExists then
    match inp.content with
    | .ok t => ⟨t, false, r1⟩
    | .invalid => ⟨inp.table, true, r1 + 1⟩
  else ⟨inp.table, false, r1⟩

/-- Claim C8: when the snapshot file exists but fails to parse, `initialize`
deletes the file, schedules a refresh, and keeps the previous in-memory
table (and, being a total function of its input, does not crash). -/
theorem corrupt_snapshot_deleted_and_refreshed {T : Type} (inp : InitInput T)
    (hex : inp.fileExists = true) (hc : inp.content = ParseOutcome.invalid) :
    (plugin_startup inp).table = inp.table
      ∧ (plugin_startup inp).fileDeleted = true
      ∧ 1 ≤ (plugin_startup inp).refreshTasks := by
  unfold plugin_startup
  rw [hex, hc]
  simp

/-- Witness for C8: a fresh (0-day-old) but corrupt snapshot is deleted and
a refresh is scheduled. -/
theorem corrupt_snapshot_deleted_and_refreshed_witness :
    (plugin_startup (⟨true, 0, ParseOutcome.invalid, 42⟩ : InitInput Nat)).table = 42
      ∧ (plugin_startup (⟨true, 0, ParseOutcome.invalid, 42⟩ : InitInput Nat)).fileDeleted
          = true
      ∧ 1 ≤ (plugin_startup (⟨true, 0, ParseOutcome.invalid, 42⟩ : InitInput Nat)).refreshTasks :=
  corrupt_snapshot_deleted_and_refreshed ⟨true, 0, ParseOutcome.invalid, 42⟩ rfl rfl

/-! ## Daily-material refresh (`_refresh_everyday_materials`, lines 88-108) -/

/-- Outcome of one fetch attempt (`client.get` + `raise_for_status`): a
parsed table with its serialized form, or a raised transient error
(`httpx.HTTPError` / `ssl.SSLZeroReturnError`). -/
inductive FetchOutcome (T : Type) where
  | success (table : T) (serialized : String)
  | failure
deriving DecidableEq, Repr

/-- How `_refresh_everyday_materials` terminated. -/
inductive RefreshEnd where
  /-- The coroutine returned normally. -/
  | returned
  /-- A `NameError` escaped while evaluating the `except` clause. -/
  | raisedNameError
deriving DecidableEq, Repr

/-- The observable effects of `_refresh_everyday_materials`: the in-memory
table and on-disk snapshot afterwards, the number of fetch attempts actually
made, the number of 1-second sleeps, and how the coroutine ended. -/
structure RefreshResult (T : Type) where
  table : T
  file : Option String
  fetchCalls : Nat
  sleeps : Nat
  outcome : RefreshEnd
deriving DecidableEq, Repr

/-- The retry loop of `_refresh_everyday_materials` (lines 90-108), given the
outcome of each attempt (`src k` is attempt `k`) and the prior in-memory
table and snapshot file.  A successful attempt stores the parsed table and
writes the snapshot.  On a failed attempt the interpreter evaluates the
clause `except (HTTPError, SSLZeroReturnError)` — but neither name is
imported anywhere in `remaining.py`, so this evaluation raises `NameError`
before the `sleep`/retry/logging logic can run, and the loop never reaches a
second iteration. -/
def refresh_loop {T : Type} (src : Nat → FetchOutcome T) (table : T)
    (file : Option String) : Nat → Nat → RefreshResult T
  | _, 0 => ⟨table, file, 0, 0, .returned⟩
  | k, _ + 1 =>
    match src k with
    | .success t s => ⟨t, some s, 1, 0, .returned⟩
    | .failure => ⟨table, file, 1, 0, .raisedNameError⟩

/-- `_refresh_everyday_materials(retry=5)`: run the attempt loop starting at
attempt 1 with at most `retry` iterations. -/
def refresh_everyday_materials {T : Type} (src : Nat → FetchOutcome T)
    (retry : Nat) (table : T) (file : Option String) : RefreshResult T :=
  refresh_loop src table file 1 retry

/-- Claim C4 (code bug): when the first fetch attempt fails transiently, the
refresh makes exactly one attempt, never sleeps, and raises `NameError`
(the names in the `except` clause are unbound); the in-memory table and the
snapshot file are left unchanged.  The claimed 5-attempt
sleep-and-retry policy never runs. -/
theorem refresh_failure_raises_name_error :
    refresh_everyday_materials (fun _ => (FetchOutcome.failure : FetchOutcome Nat)) 5 7
        (some "cached")
      = ⟨7, some "cached", 1, 0, .raisedNameError⟩ := rfl

/-! ## Guest-character filter of `get_material_detail` (lines 281-289) -/

/-- One record of `material_detail_additions["requiredBy"]["avatar"]`: a JSON
object carrying the avatar id (modelled as its character list). -/
structure AvatarRecord where
  id : List Char
deriving DecidableEq, Repr

/-- The guest/cross-over id marker `"10000005-"` used by the filter. -/
def guest_id_marker : List Char := ['1', '0', '0', '0', '0', '0', '0', '5', '-']

/-- Python `str(avatar)` where `avatar` is a dict: the repr of a dict always
begins with the character `{` (quoting of the fields is irrelevant to the
check made on it, only the first character matters). -/
def avatar_record_str (a : AvatarRecord) : List Char :=
  '\x7b' :: ("id: ".toList ++ a.id ++ ['\x7d'])

/-- Lines 284-288: `required_by` keeps `avatar["id"]` for the records where
`str(avatar).startswith("10000005-")` is false. -/
def material_detail_required_by (avatars : List AvatarRecord) : List (List Char) :=
  (avatars.filter (fun a => !(guest_id_marker.isPrefixOf (avatar_record_str a)))).map
    (fun a => a.id)

theorem guest_marker_never_matches (a : AvatarRecord) :
    guest_id_marker.isPrefixOf (avatar_record_str a) = false := rfl

/-- Claim C6 (code bug): the guest filter tests `str(avatar)` — the repr of
the whole record, which begins with a brace — so it never excludes anything:
`required_by` keeps every record's id, and in particular an id beginning
with `10000005-` does appear. -/
theorem guest_filter_is_dead :
    material_detail_required_by [⟨"10000005-anemo".toList⟩]
        = ["10000005-anemo".toList]
      ∧ guest_id_marker.isPrefixOf "10000005-anemo".toList = true
      ∧ ∀ avatars : List AvatarRecord,
          material_detail_required_by avatars = avatars.map (fun a => a.id) := by
  refine ⟨by decide, by decide, ?_⟩
  intro avatars
  unfold material_detail_required_by
  rw [List.filter_eq_self.mpr]
  intro a _
  rw [guest_marker_never_matches]
  rfl
